import Mathlib

/-!
# StablePay — encrypted payment-request protocol, shallow embedding

A Lean model of the StablePay client core, translated from the TypeScript
sources:

* `src/core/crypto/e2ee.ts` — the X25519 + HKDF + AES-256-GCM envelope
  (`encrypt`, `decrypt`, `encryptJSON`, `serializePayload`,
  `encryptForTransmission`, `decryptFromTransmission`);
* `src/core/crypto/keyDerivation.ts` — key pairs (scalar private key,
  derived public key);
* `src/store` (Zustand app store) — `PaymentRequest`, `addRequest`,
  `updateRequest`;
* `src/core/websocket/messageHandler.ts` — `handleIncomingPaymentRequest`,
  `handleRequestPaid`, `handleRequestCancelled`;
* `src/features/payments/screens/SendScreen.tsx` (request service part) —
  `markRequestPaid`, `cancelRequest`, `expireOldRequests`;
* `src/core/websocket/userService.ts` — `registerUser`, `updateUsername`,
  `isValidUsername`;
* the Profile screen's `handleSaveUsername` callback;
* `src/core/websocket/client.ts` — the `WebSocketClient` connection state
  machine (`send`, `disconnect`, `handleClose`, `scheduleReconnect`,
  `flushMessageQueue`), modelled as an explicit event-step function.

External cryptographic primitives (the noble libraries) are modelled
symbolically, at the level of the contracts the code relies on:

* an X25519 public key is a wrapper around its private scalar
  (`getPublicKey` is the idealised injective key map);
* the Diffie-Hellman shared secret of two scalars is their canonical
  unordered pair `(min, max)` — commutative in the two parties and
  injective in each scalar, which is the idealised ECDH contract;
* HKDF is an injective pairing of the input keying material with the
  context-info string;
* AES-256-GCM is a symbolic AEAD: the ciphertext is an opaque package of
  key, nonce and plaintext, and decryption releases the plaintext exactly
  when key and nonce match (authentication-tag success) and fails
  otherwise.  The plaintext type is left polymorphic since the envelope
  code treats it as opaque bytes.

Randomness (`randomBytes`) is passed in as explicit arguments: `encrypt`
receives the sampled ephemeral private key and nonce.  Fallible
operations (GCM tag failure, JSON parse) return `Option` where the source
throws.
-/

namespace StablePay

/-! ## CryptoEnvelope (src/core/crypto/e2ee.ts) -/

/-- `const HKDF_INFO = 'stablepay-e2ee-v1'` — the versioned KDF context
string. -/
def HKDF_INFO : String := "stablepay-e2ee-v1"

/-- `const NONCE_LENGTH = 12` — GCM nonce length in bytes. -/
def NONCE_LENGTH : Nat := 12

/-- An X25519 public key, `x25519.getPublicKey(priv)`: symbolically, the
wrapper of the private scalar (the idealised injective key map). -/
structure XPub where
  scalar : Nat
deriving DecidableEq, Repr

/-- `x25519.getPublicKey` (noble library, idealised). -/
def getPublicKey (priv : Nat) : XPub := ⟨priv⟩

/-- `x25519.getSharedSecret(priv, pub)` (noble library, idealised): the
canonical unordered pair of the two private scalars — commutative in the
parties and injective in each, the ECDH contract the envelope relies on. -/
def getSharedSecret (priv : Nat) (pub : XPub) : Nat × Nat :=
  (min priv pub.scalar, max priv pub.scalar)

/-- The derived AES-256 key: `hkdf(sha256, sharedSecret, undefined,
HKDF_INFO, 32)`, modelled as the injective pairing of keying material and
context info. -/
structure AesKey where
  secret : Nat × Nat
  info : String
deriving DecidableEq, Repr

/-- `hkdf` (noble library, idealised as injective). -/
def hkdf (secret : Nat × Nat) (info : String) : AesKey := ⟨secret, info⟩

/-- A symbolic AES-GCM ciphertext: an opaque authenticated package of key,
nonce and plaintext.  `α` is the plaintext type (opaque bytes in the
source). -/
structure GcmCiphertext (α : Type) where
  key : AesKey
  nonce : List Nat
  data : α
deriving DecidableEq

/-- `gcm(key, nonce).encrypt(plaintext)` (noble library, idealised AEAD). -/
def gcmEncrypt {α : Type} (k : AesKey) (n : List Nat) (pt : α) : GcmCiphertext α :=
  ⟨k, n, pt⟩

/-- `gcm(key, nonce).decrypt(ciphertext)` (noble library, idealised AEAD):
releases the plaintext exactly when key and nonce match (tag check
succeeds); `none` models the thrown authentication error. -/
def gcmDecrypt {α : Type} (k : AesKey) (n : List Nat) (c : GcmCiphertext α) : Option α :=
  if c.key = k ∧ c.nonce = n then some c.data else none

/-- `EncryptedPayload` from e2ee.ts: `{ephemeralPublicKey, nonce,
ciphertext}`. -/
structure EncryptedPayload (α : Type) where
  ephemeralPublicKey : XPub
  nonce : List Nat
  ciphertext : GcmCiphertext α
deriving DecidableEq

/-- `encrypt(plaintext, recipientPublicKey)` from e2ee.ts.  The two
sampled random values (`randomBytes(32)` ephemeral private key and
`randomBytes(NONCE_LENGTH)` nonce) are explicit arguments. -/
def encrypt {α : Type} (ephemeralPrivateKey : Nat) (nonceRandom : List Nat)
    (plaintext : α) (recipientPublicKey : XPub) : EncryptedPayload α :=
  let ephemeralPublicKey := getPublicKey ephemeralPrivateKey
  let sharedSecret := getSharedSecret ephemeralPrivateKey recipientPublicKey
  let aesKey := hkdf sharedSecret HKDF_INFO
  { ephemeralPublicKey := ephemeralPublicKey
    nonce := nonceRandom
    ciphertext := gcmEncrypt aesKey nonceRandom plaintext }

/-- `decrypt(payload, recipientPrivateKey)` from e2ee.ts; `none` models
the thrown `DecryptionFailed`. -/
def decrypt {α : Type} (payload : EncryptedPayload α) (recipientPrivateKey : Nat) :
    Option α :=
  let sharedSecret := getSharedSecret recipientPrivateKey payload.ephemeralPublicKey
  let aesKey := hkdf sharedSecret HKDF_INFO
  gcmDecrypt aesKey payload.nonce payload.ciphertext

/-- The result of `JSON.stringify` followed by `TextEncoder.encode` on a
structured value: an opaque byte encoding, modelled as an injective
wrapper (inverted by `jsonParse`). -/
structure JsonBytes (α : Type) where
  val : α
deriving DecidableEq

/-- `JSON.stringify` + `TextEncoder` (idealised injective encoding). -/
def jsonStringify {α : Type} (d : α) : JsonBytes α := ⟨d⟩

/-- `TextDecoder` + `JSON.parse`; `none` models the `MalformedPayload`
throw on garbage. -/
def jsonParse {α : Type} (b : JsonBytes α) : Option α := some b.val

/-- `encryptJSON(data, recipientPublicKey)` from e2ee.ts. -/
def encryptJSON {α : Type} (ephemeralPrivateKey : Nat) (nonceRandom : List Nat)
    (data : α) (recipientPublicKey : XPub) : EncryptedPayload (JsonBytes α) :=
  encrypt ephemeralPrivateKey nonceRandom (jsonStringify data) recipientPublicKey

/-- `decryptJSON(payload, recipientPrivateKey)` from e2ee.ts. -/
def decryptJSON {α : Type} (payload : EncryptedPayload (JsonBytes α))
    (recipientPrivateKey : Nat) : Option α :=
  match decrypt payload recipientPrivateKey with
  | none => none
  | some b => jsonParse b

/-- `EncryptedPayloadSerialized` from e2ee.ts: the base64-string form of
each component.  Base64 is a bijection on byte strings, so the serialized
form is represented by the same symbolic components. -/
structure EncryptedPayloadSerialized (α : Type) where
  ephemeralPublicKey : XPub
  nonce : List Nat
  ciphertext : GcmCiphertext α
deriving DecidableEq

/-- `serializePayload` from e2ee.ts (base64-encode each component). -/
def serializePayload {α : Type} (p : EncryptedPayload α) :
    EncryptedPayloadSerialized α :=
  ⟨p.ephemeralPublicKey, p.nonce, p.ciphertext⟩

/-- `deserializePayload` from e2ee.ts (base64-decode each component). -/
def deserializePayload {α : Type} (s : EncryptedPayloadSerialized α) :
    EncryptedPayload α :=
  ⟨s.ephemeralPublicKey, s.nonce, s.ciphertext⟩

/-- `encryptForTransmission(data, recipientPublicKey)` from e2ee.ts. -/
def encryptForTransmission {α : Type} (ephemeralPrivateKey : Nat)
    (nonceRandom : List Nat) (data : α) (recipientPublicKey : XPub) :
    EncryptedPayloadSerialized (JsonBytes α) :=
  serializePayload (encryptJSON ephemeralPrivateKey nonceRandom data recipientPublicKey)

/-- `decryptFromTransmission(serialized, recipientPrivateKey)` from
e2ee.ts. -/
def decryptFromTransmission {α : Type} (s : EncryptedPayloadSerialized (JsonBytes α))
    (recipientPrivateKey : Nat) : Option α :=
  decryptJSON (deserializePayload s) recipientPrivateKey

/-! ### Round-trip and authentication lemmas -/

/-- Raw envelope round trip: opening with the recipient's private key the
envelope sealed to the matching public key recovers the plaintext. -/
lemma decrypt_encrypt {α : Type} (e r : Nat) (n : List Nat) (p : α) :
    decrypt (encrypt e n p (getPublicKey r)) r = some p := by
  simp [decrypt, encrypt, gcmDecrypt, gcmEncrypt, getSharedSecret, getPublicKey,
    hkdf, Nat.min_comm, Nat.max_comm]

/-- Serialization round trip: base64 decode of base64 encode is the
identity on each envelope component. -/
lemma deserializePayload_serializePayload {α : Type} (p : EncryptedPayload α) :
    deserializePayload (serializePayload p) = p := rfl

/-- Transmission-level round trip: deserialize-and-decrypt of
serialize-and-encrypt recovers the original structured payload. -/
lemma decryptFromTransmission_encryptForTransmission {α : Type} (e r : Nat)
    (n : List Nat) (d : α) :
    decryptFromTransmission (encryptForTransmission e n d (getPublicKey r)) r =
      some d := by
  simp [decryptFromTransmission, encryptForTransmission,
    deserializePayload_serializePayload, decryptJSON, encryptJSON,
    decrypt_encrypt, jsonParse, jsonStringify]

/-- The canonical unordered pair of scalars determines each scalar given
the other: the idealised ECDH injectivity used for wrong-key rejection. -/
lemma minmax_cancel {a b e : Nat} (h1 : min e a = min b e) (h2 : max e a = max b e) :
    a = b := by
  omega

/-- C4: For every plaintext and every X25519 key pair, decrypting with the
private key the envelope produced by encrypting to the matching public key
returns exactly the plaintext, and `decryptFromTransmission` of
`encryptForTransmission` returns the original JSON payload. -/
theorem seal_open_roundtrip {α β : Type} (e r : Nat) (n : List Nat) (p : α) (d : β) :
    decrypt (encrypt e n p (getPublicKey r)) r = some p ∧
      decryptFromTransmission (encryptForTransmission e n d (getPublicKey r)) r =
        some d :=
  ⟨decrypt_encrypt e r n p, decryptFromTransmission_encryptForTransmission e r n d⟩

/-- C5: Decrypting an envelope sealed to key pair A with the private key of
any distinct key pair B fails (the GCM authentication check rejects it);
no plaintext is ever returned. -/
theorem open_wrong_key_fails {α : Type} (e a b : Nat) (n : List Nat) (p : α)
    (hba : b ≠ a) :
    decrypt (encrypt e n p (getPublicKey a)) b = none := by
  simp only [decrypt, encrypt, gcmDecrypt, gcmEncrypt, getSharedSecret,
    getPublicKey, hkdf]
  rw [if_neg]
  rintro ⟨hk, -⟩
  have hsec : ((min e a, max e a) : Nat × Nat) = (min b e, max b e) :=
    congrArg AesKey.secret hk
  have h1 : min e a = min b e := congrArg Prod.fst hsec
  have h2 : max e a = max b e := congrArg Prod.snd hsec
  exact hba (minmax_cancel h1 h2).symm

/-- C5 witness: a concrete wrong-key decryption failure. -/
theorem open_wrong_key_fails_witness :
    decrypt (encrypt 0 [9] ([37] : List Nat) (getPublicKey 1)) 2 = none :=
  open_wrong_key_fails 0 1 2 [9] [37] (by decide)

/-- C9: Two `encrypt` calls with identical plaintext and recipient key
whose sampled random values (ephemeral private key, nonce) are not both
equal produce distinct envelopes. -/
theorem encrypt_fresh_randomness_distinct {α : Type} (e1 e2 : Nat)
    (n1 n2 : List Nat) (p : α) (pub : XPub) (h : ¬ (e1 = e2 ∧ n1 = n2)) :
    encrypt e1 n1 p pub ≠ encrypt e2 n2 p pub := by
  intro heq
  apply h
  constructor
  · have hpub : getPublicKey e1 = getPublicKey e2 :=
      congrArg EncryptedPayload.ephemeralPublicKey heq
    exact congrArg XPub.scalar hpub
  · exact congrArg EncryptedPayload.nonce heq

/-- C9 witness: concrete envelopes from distinct randomness differ. -/
theorem encrypt_fresh_randomness_distinct_witness :
    encrypt 0 [1] ([5] : List Nat) ⟨7⟩ ≠ encrypt 2 [1] ([5] : List Nat) ⟨7⟩ :=
  encrypt_fresh_randomness_distinct 0 2 [1] [1] [5] ⟨7⟩ (by decide)

/-! ## RequestLedger data model (src/store, Zustand app store) -/

/-- `direction: 'sent' | 'received'`. -/
inductive Direction
  | sent
  | received
deriving DecidableEq, Repr

/-- `status: 'pending' | 'paid' | 'cancelled' | 'expired'`. -/
inductive RequestStatus
  | pending
  | paid
  | cancelled
  | expired
deriving DecidableEq, Repr

/-- `PaymentRequest` from src/store: the local lifecycle record. -/
structure PaymentRequest where
  id : String
  direction : Direction
  counterpartyAddress : String
  counterpartyUsername : Option String
  amount : String
  memo : Option String
  status : RequestStatus
  expiresAt : Nat
  createdAt : Nat
deriving DecidableEq, Repr

/-- `Partial<PaymentRequest>`: a partial update; `none` means the field is
absent from the update object. -/
structure PaymentRequestUpdate where
  id : Option String := none
  direction : Option Direction := none
  counterpartyAddress : Option String := none
  counterpartyUsername : Option (Option String) := none
  amount : Option String := none
  memo : Option (Option String) := none
  status : Option RequestStatus := none
  expiresAt : Option Nat := none
  createdAt : Option Nat := none
deriving DecidableEq, Repr

/-- The object spread `{ ...req, ...updates }`: fields present in the
update replace the request's, absent fields are kept. -/
def applyUpdate (r : PaymentRequest) (u : PaymentRequestUpdate) : PaymentRequest where
  id := u.id.getD r.id
  direction := u.direction.getD r.direction
  counterpartyAddress := u.counterpartyAddress.getD r.counterpartyAddress
  counterpartyUsername := u.counterpartyUsername.getD r.counterpartyUsername
  amount := u.amount.getD r.amount
  memo := u.memo.getD r.memo
  status := u.status.getD r.status
  expiresAt := u.expiresAt.getD r.expiresAt
  createdAt := u.createdAt.getD r.createdAt

/-- `addRequest` from the store: appends to `pendingRequests`. -/
def addRequest (r : PaymentRequest) (reqs : List PaymentRequest) :
    List PaymentRequest :=
  reqs ++ [r]

/-- `updateRequest(id, updates)` from the store:
`pendingRequests.map(req => req.id === id ? { ...req, ...updates } : req)`. -/
def updateRequest (rid : String) (u : PaymentRequestUpdate)
    (reqs : List PaymentRequest) : List PaymentRequest :=
  reqs.map fun r => if r.id = rid then applyUpdate r u else r

/-- The update object `{ status: 'paid' }`. -/
def paidUpdate : PaymentRequestUpdate := { status := some RequestStatus.paid }

/-- The update object `{ status: 'cancelled' }`. -/
def cancelledUpdate : PaymentRequestUpdate :=
  { status := some RequestStatus.cancelled }

/-- The update object `{ status: 'expired' }`. -/
def expiredUpdate : PaymentRequestUpdate :=
  { status := some RequestStatus.expired }

/-- `handleRequestPaid` from messageHandler.ts (also `markRequestPaid` in
the SendScreen request service): `updateRequest(requestId, { status:
'paid' })`, applied on an inbound `request_paid` event. -/
def handleRequestPaid (requestId : String) (reqs : List PaymentRequest) :
    List PaymentRequest :=
  updateRequest requestId paidUpdate reqs

/-- `handleRequestCancelled` from messageHandler.ts (also the local-state
part of `cancelRequest`): `updateRequest(requestId, { status:
'cancelled' })`. -/
def handleRequestCancelled (requestId : String) (reqs : List PaymentRequest) :
    List PaymentRequest :=
  updateRequest requestId cancelledUpdate reqs

/-- `expireOldRequests()` from the SendScreen request service: filter the
snapshot for `status === 'pending' && expiresAt < now`, then
`updateRequest(req.id, { status: 'expired' })` for each. -/
def expireOldRequests (now : Nat) (reqs : List PaymentRequest) :
    List PaymentRequest :=
  (reqs.filter fun r =>
      decide (r.status = RequestStatus.pending ∧ r.expiresAt < now)).foldl
    (fun acc r => updateRequest r.id expiredUpdate acc) reqs

/-! ### Ledger lemmas -/

/-- The effect of the `{ status: 'expired' }` merge on one record. -/
def expireMark (r : PaymentRequest) : PaymentRequest :=
  { r with status := RequestStatus.expired }

lemma applyUpdate_expiredUpdate (r : PaymentRequest) :
    applyUpdate r expiredUpdate = expireMark r := rfl

lemma expireMark_id (r : PaymentRequest) : (expireMark r).id = r.id := rfl

lemma expireMark_idem (r : PaymentRequest) :
    expireMark (expireMark r) = expireMark r := rfl

lemma updateRequest_expiredUpdate (rid : String) (reqs : List PaymentRequest) :
    updateRequest rid expiredUpdate reqs =
      reqs.map fun q => if q.id = rid then expireMark q else q := rfl

/-- Folding per-id expiry updates over a worklist marks exactly the
records whose id occurs in the worklist. -/
lemma foldl_updateExpired (L : List PaymentRequest) (init : List PaymentRequest) :
    L.foldl (fun acc r => updateRequest r.id expiredUpdate acc) init =
      init.map fun r =>
        if r.id ∈ L.map PaymentRequest.id then expireMark r else r := by
  induction L generalizing init with
  | nil => simp
  | cons x xs ih =>
    rw [List.foldl_cons, ih, updateRequest_expiredUpdate, List.map_map]
    refine List.map_congr_left fun r _ => ?_
    by_cases h1 : r.id = x.id
    · by_cases h2 : r.id ∈ xs.map PaymentRequest.id
      · simp [Function.comp, h1, h2, expireMark_id, expireMark_idem]
      · simp [Function.comp, h1, h2, expireMark_id, expireMark_idem]
    · by_cases h2 : r.id ∈ xs.map PaymentRequest.id
      · simp [Function.comp, h1, h2]
      · simp [Function.comp, h1, h2]

/-- Under unique request ids, membership of an id in the pending-and-due
worklist is equivalent to the record itself being pending and due. -/
lemma mem_expireWorklist_iff (now : Nat) (reqs : List PaymentRequest)
    (h : (reqs.map PaymentRequest.id).Nodup) (r : PaymentRequest) (hr : r ∈ reqs) :
    r.id ∈ ((reqs.filter fun q =>
        decide (q.status = RequestStatus.pending ∧ q.expiresAt < now)).map
          PaymentRequest.id) ↔
      (r.status = RequestStatus.pending ∧ r.expiresAt < now) := by
  constructor
  · intro hm
    rcases List.mem_map.mp hm with ⟨q, hq, hid⟩
    rcases List.mem_filter.mp hq with ⟨hqmem, hqp⟩
    have hqr : q = r := List.inj_on_of_nodup_map h hqmem hr hid
    subst hqr
    exact of_decide_eq_true hqp
  · intro hp
    exact List.mem_map.mpr
      ⟨r, List.mem_filter.mpr ⟨hr, decide_eq_true hp⟩, rfl⟩

/-- The expiry sweep, under unique request ids, is the pointwise map that
expires exactly the pending records strictly past their deadline. -/
lemma expireOldRequests_eq_map (now : Nat) (reqs : List PaymentRequest)
    (h : (reqs.map PaymentRequest.id).Nodup) :
    expireOldRequests now reqs =
      reqs.map fun r =>
        if r.status = RequestStatus.pending ∧ r.expiresAt < now then
          expireMark r
        else r := by
  unfold expireOldRequests
  rw [foldl_updateExpired]
  refine List.map_congr_left fun r hr => ?_
  by_cases hp : r.status = RequestStatus.pending ∧ r.expiresAt < now
  · rw [if_pos ((mem_expireWorklist_iff now reqs h r hr).mpr hp), if_pos hp]
  · rw [if_neg (fun hm => hp ((mem_expireWorklist_iff now reqs h r hr).mp hm)),
      if_neg hp]

lemma optionGetD_getD {α : Type} (o : Option α) (x : α) :
    o.getD (o.getD x) = o.getD x := by
  cases o <;> rfl

lemma applyUpdate_applyUpdate (r : PaymentRequest) (u : PaymentRequestUpdate) :
    applyUpdate (applyUpdate r u) u = applyUpdate r u := by
  simp [applyUpdate, optionGetD_getD]

lemma applyUpdate_id_of_none (r : PaymentRequest) (u : PaymentRequestUpdate)
    (hu : u.id = none) : (applyUpdate r u).id = r.id := by
  simp [applyUpdate, hu]

/-- `updateRequest` with an id-preserving update is idempotent. -/
lemma updateRequest_idem (rid : String) (u : PaymentRequestUpdate)
    (hu : u.id = none) (reqs : List PaymentRequest) :
    updateRequest rid u (updateRequest rid u reqs) =
      updateRequest rid u reqs := by
  unfold updateRequest
  rw [List.map_map]
  refine List.map_congr_left fun r _ => ?_
  by_cases h : r.id = rid
  · simp [Function.comp, h, applyUpdate_id_of_none _ _ hu,
      applyUpdate_applyUpdate]
  · simp [Function.comp, h]

/-! ## Incoming payment requests (src/core/websocket/messageHandler.ts) -/

/-- `PaymentRequestPayload` from websocket/types.ts: the plaintext sealed
inside the envelope. -/
structure PaymentRequestPayload where
  requestId : String
  amount : String
  currency : String
  memo : Option String
  senderAddress : String
  senderUsername : Option String
  createdAt : Nat
  expiresAt : Nat
deriving DecidableEq, Repr

/-- The inbound `payment_request` frame (server-to-client): `{from,
requestId, encrypted, expiresAt}`.  The `encrypted` field is the
JSON-parsed serialized envelope. -/
structure IncomingPaymentRequestMsg where
  fromAddress : String
  requestId : String
  encrypted : EncryptedPayloadSerialized (JsonBytes PaymentRequestPayload)
  expiresAt : Nat
deriving DecidableEq

/-- The `PaymentRequest` record `handleIncomingPaymentRequest` builds from
a decrypted payload: direction `received`, status `pending`, timestamps
copied from the payload. -/
def requestOfPayload (d : PaymentRequestPayload) : PaymentRequest where
  id := d.requestId
  direction := Direction.received
  counterpartyAddress := d.senderAddress
  counterpartyUsername := d.senderUsername
  amount := d.amount
  memo := d.memo
  status := RequestStatus.pending
  expiresAt := d.expiresAt
  createdAt := d.createdAt

/-- `handleIncomingPaymentRequest` from messageHandler.ts: load the X25519
private key from storage (missing key: log and return), decrypt the
envelope (failure: log and return), then `addRequest` the new
`received`/`pending` record.  The code performs no check of
`expiresAt` against the current time. -/
def handleIncomingPaymentRequest (storedX25519PrivateKey : Option Nat)
    (msg : IncomingPaymentRequestMsg) (reqs : List PaymentRequest) :
    List PaymentRequest :=
  match storedX25519PrivateKey with
  | none => reqs
  | some k =>
    match decryptFromTransmission msg.encrypted k with
    | none => reqs
    | some d => addRequest (requestOfPayload d) reqs

/-! ## Claim C10 — updateRequest frame property -/

/-- C10: `updateRequest` rewrites, position by position, exactly the
records whose id matches, applying the object-spread merge there and
leaving all other records untouched; an update naming no field of a
record leaves that field unchanged, a named field is replaced; on a
collection without the id it is the identity (and, being a total
function, never raises). -/
theorem updateRequest_frame (reqs : List PaymentRequest) (rid : String)
    (u : PaymentRequestUpdate) :
    (updateRequest rid u reqs).length = reqs.length
    ∧ (∀ i : Nat,
        (updateRequest rid u reqs)[i]? =
          (reqs[i]?).map fun r => if r.id = rid then applyUpdate r u else r)
    ∧ ((∀ r ∈ reqs, r.id ≠ rid) → updateRequest rid u reqs = reqs)
    ∧ (∀ r v, u.status = some v → (applyUpdate r u).status = v)
    ∧ (∀ r v, u.amount = some v → (applyUpdate r u).amount = v)
    ∧ (∀ r : PaymentRequest, u.id = none → (applyUpdate r u).id = r.id)
    ∧ (∀ r : PaymentRequest, u.direction = none →
        (applyUpdate r u).direction = r.direction)
    ∧ (∀ r : PaymentRequest, u.counterpartyAddress = none →
        (applyUpdate r u).counterpartyAddress = r.counterpartyAddress)
    ∧ (∀ r : PaymentRequest, u.counterpartyUsername = none →
        (applyUpdate r u).counterpartyUsername = r.counterpartyUsername)
    ∧ (∀ r : PaymentRequest, u.amount = none → (applyUpdate r u).amount = r.amount)
    ∧ (∀ r : PaymentRequest, u.memo = none → (applyUpdate r u).memo = r.memo)
    ∧ (∀ r : PaymentRequest, u.status = none → (applyUpdate r u).status = r.status)
    ∧ (∀ r : PaymentRequest, u.expiresAt = none →
        (applyUpdate r u).expiresAt = r.expiresAt)
    ∧ (∀ r : PaymentRequest, u.createdAt = none →
        (applyUpdate r u).createdAt = r.createdAt) := by
  refine ⟨?_, ?_, ?_, ?_, ?_, ?_, ?_, ?_, ?_, ?_, ?_, ?_, ?_, ?_⟩
  · simp [updateRequest]
  · intro i
    simp [updateRequest, List.getElem?_map]
  · intro h
    unfold updateRequest
    have hcong : ∀ r ∈ reqs, (if r.id = rid then applyUpdate r u else r) = r :=
      fun r hr => if_neg (h r hr)
    rw [List.map_congr_left hcong, List.map_id']
  · intro r v hv
    simp [applyUpdate, hv]
  · intro r v hv
    simp [applyUpdate, hv]
  · intro r hu
    simp [applyUpdate, hu]
  · intro r hu
    simp [applyUpdate, hu]
  · intro r hu
    simp [applyUpdate, hu]
  · intro r hu
    simp [applyUpdate, hu]
  · intro r hu
    simp [applyUpdate, hu]
  · intro r hu
    simp [applyUpdate, hu]
  · intro r hu
    simp [applyUpdate, hu]
  · intro r hu
    simp [applyUpdate, hu]
  · intro r hu
    simp [applyUpdate, hu]

/-- C10 witness: on a concrete one-record collection (fields: id,
direction, counterpartyAddress, counterpartyUsername, amount, memo,
status, expiresAt, createdAt), a status-only update of a missing id is
the identity. -/
theorem updateRequest_frame_witness :
    (∀ r ∈ [(⟨"a", Direction.sent, "0xB", none, "1.00", none,
        RequestStatus.pending, 10, 1⟩ : PaymentRequest)], r.id ≠ "z")
    ∧ updateRequest "z" paidUpdate
        [(⟨"a", Direction.sent, "0xB", none, "1.00", none,
          RequestStatus.pending, 10, 1⟩ : PaymentRequest)] =
        [(⟨"a", Direction.sent, "0xB", none, "1.00", none,
          RequestStatus.pending, 10, 1⟩ : PaymentRequest)] :=
  ⟨by decide, (updateRequest_frame _ "z" paidUpdate).2.2.1 (by decide)⟩

/-! ## Claim C6 — expiry sweep -/

/-- C6 counterexample: a pending request whose `expiresAt` equals `now` is
NOT expired by the sweep — the code tests `expiresAt < now`, so at the
`expiresAt = now` boundary the claim's `expiresAt <= now` behaviour
fails. -/
theorem sweep_boundary_cex :
    expireOldRequests 100
        [(⟨"r1", Direction.sent, "0xB", none, "25.00", none,
          RequestStatus.pending, 100, 50⟩ : PaymentRequest)] =
      [(⟨"r1", Direction.sent, "0xB", none, "25.00", none,
        RequestStatus.pending, 100, 50⟩ : PaymentRequest)]
    ∧ (100 : Nat) ≤ 100 := by
  constructor
  · rfl
  · decide

/-- C6 (amended): on a collection with unique request ids, the expiry
sweep expires exactly the pending requests with `expiresAt` strictly less
than `now`, and leaves every other request — non-pending, or with
`expiresAt >= now` — unchanged. -/
theorem sweep_expires_strictly_past_pending (now : Nat)
    (reqs : List PaymentRequest) (h : (reqs.map PaymentRequest.id).Nodup) :
    expireOldRequests now reqs =
      reqs.map fun r =>
        if r.status = RequestStatus.pending ∧ r.expiresAt < now then
          { r with status := RequestStatus.expired }
        else r :=
  expireOldRequests_eq_map now reqs h

/-- C6 witness: a concrete sweep expiring one overdue pending request and
leaving a paid one alone. -/
theorem sweep_expires_strictly_past_pending_witness :
    (([(⟨"r1", Direction.sent, "0xB", none, "25.00", none,
          RequestStatus.pending, 40, 1⟩ : PaymentRequest),
        ⟨"r2", Direction.received, "0xC", none, "5.00", none,
          RequestStatus.paid, 10, 1⟩].map PaymentRequest.id).Nodup)
    ∧ expireOldRequests 100
        [(⟨"r1", Direction.sent, "0xB", none, "25.00", none,
            RequestStatus.pending, 40, 1⟩ : PaymentRequest),
          ⟨"r2", Direction.received, "0xC", none, "5.00", none,
            RequestStatus.paid, 10, 1⟩] =
        [(⟨"r1", Direction.sent, "0xB", none, "25.00", none,
            RequestStatus.pending, 40, 1⟩ : PaymentRequest),
          ⟨"r2", Direction.received, "0xC", none, "5.00", none,
            RequestStatus.paid, 10, 1⟩].map fun r =>
          if r.status = RequestStatus.pending ∧ r.expiresAt < 100 then
            { r with status := RequestStatus.expired }
          else r :=
  ⟨by decide, sweep_expires_strictly_past_pending 100 _ (by decide)⟩

/-! ## Claim C2 — terminal-status stability -/

/-- C2 counterexample: a request already in the terminal status `expired`
is NOT left unchanged by a subsequent `request_paid` event — the store's
`updateRequest` overwrites the status unconditionally, so the record
flips from `expired` to `paid`. -/
theorem terminal_status_not_stable_cex :
    handleRequestPaid "r1"
        [(⟨"r1", Direction.sent, "0xB", none, "25.00", none,
          RequestStatus.expired, 100, 50⟩ : PaymentRequest)] =
      [(⟨"r1", Direction.sent, "0xB", none, "25.00", none,
        RequestStatus.paid, 100, 50⟩ : PaymentRequest)]
    ∧ RequestStatus.paid ≠ RequestStatus.expired := by
  constructor
  · rfl
  · decide

/-- C2 (amended): transition attempts on a terminal request never throw
(all operations are total), repeating the same event is idempotent, and
the expiry sweep does leave every non-pending (hence every terminal)
request unchanged — but an inbound `request_paid`/`request_cancelled`
event or a local `markPaid`/`cancel` call overwrites the status of the
matching request unconditionally, so a terminal status can be replaced by
a different terminal status (e.g. `expired` becomes `paid`). -/
theorem terminal_status_overwrite_amended (reqs : List PaymentRequest)
    (rid : String) (h : (reqs.map PaymentRequest.id).Nodup) :
    handleRequestPaid rid (handleRequestPaid rid reqs) =
        handleRequestPaid rid reqs
    ∧ handleRequestCancelled rid (handleRequestCancelled rid reqs) =
        handleRequestCancelled rid reqs
    ∧ (∀ now : Nat, ∀ r ∈ reqs, r.status ≠ RequestStatus.pending →
        r ∈ expireOldRequests now reqs)
    ∧ (∀ r ∈ reqs, r.id = rid →
        ({ r with status := RequestStatus.paid } : PaymentRequest) ∈
          handleRequestPaid rid reqs) := by
  refine ⟨?_, ?_, ?_, ?_⟩
  · exact updateRequest_idem rid paidUpdate rfl reqs
  · exact updateRequest_idem rid cancelledUpdate rfl reqs
  · intro now r hr hterm
    rw [expireOldRequests_eq_map now reqs h]
    refine List.mem_map.mpr ⟨r, hr, ?_⟩
    rw [if_neg]
    rintro ⟨hpend, -⟩
    exact hterm hpend
  · intro r hr hid
    refine List.mem_map.mpr ⟨r, hr, ?_⟩
    rw [if_pos hid]
    rfl

/-- C2 witness: the amended behaviour on a concrete ledger with an
expired request: a duplicate paid event is a no-op relative to the first,
the sweep keeps the expired record, and the paid event overwrote the
expired status. -/
theorem terminal_status_overwrite_amended_witness :
    (([(⟨"r1", Direction.sent, "0xB", none, "25.00", none,
          RequestStatus.expired, 100, 50⟩ : PaymentRequest)].map
        PaymentRequest.id).Nodup)
    ∧ (handleRequestPaid "r1" (handleRequestPaid "r1"
          [(⟨"r1", Direction.sent, "0xB", none, "25.00", none,
            RequestStatus.expired, 100, 50⟩ : PaymentRequest)]) =
        handleRequestPaid "r1"
          [(⟨"r1", Direction.sent, "0xB", none, "25.00", none,
            RequestStatus.expired, 100, 50⟩ : PaymentRequest)]) :=
  ⟨by decide,
    (terminal_status_overwrite_amended
      [(⟨"r1", Direction.sent, "0xB", none, "25.00", none,
        RequestStatus.expired, 100, 50⟩ : PaymentRequest)] "r1" (by decide)).1⟩

/-! ## Claim C3 — expiry re-validation on receipt -/

/-- C3 counterexample: an inbound envelope whose payload carries
`expiresAt = 0` (long past) still produces a `received`/`pending` ledger
entry — the handler performs no `expiresAt > now` re-validation.
Payload fields: requestId, amount, currency, memo, senderAddress,
senderUsername, createdAt, expiresAt. -/
theorem dead_on_arrival_recorded_pending_cex :
    handleIncomingPaymentRequest (some 3)
        ⟨"0xS", "rq1",
          encryptForTransmission 5 [7]
            (⟨"rq1", "25.00", "dUSDT", none, "0xS", none, 0, 0⟩ :
              PaymentRequestPayload)
            (getPublicKey 3), 0⟩ [] =
      [(⟨"rq1", Direction.received, "0xS", none, "25.00", none,
        RequestStatus.pending, 0, 0⟩ : PaymentRequest)]
    ∧ (0 : Nat) ≤ 1000 := by
  constructor
  · rfl
  · decide

/-- C3 (amended): the receiving handler performs no expiry
re-validation: every successfully decrypted `payment_request` envelope —
whatever its `expiresAt`, even one already in the past — is recorded as a
`received`-direction `pending` ledger entry appended to the collection
(a dead-on-arrival request is only expired later by the periodic
sweep). -/
theorem incoming_request_no_expiry_revalidation (k e : Nat) (n : List Nat)
    (d : PaymentRequestPayload) (fromAddress requestId : String)
    (wireExpiresAt : Nat) (reqs : List PaymentRequest) :
    handleIncomingPaymentRequest (some k)
        ⟨fromAddress, requestId,
          encryptForTransmission e n d (getPublicKey k), wireExpiresAt⟩ reqs =
      reqs ++ [requestOfPayload d]
    ∧ (requestOfPayload d).status = RequestStatus.pending := by
  constructor
  · simp [handleIncomingPaymentRequest,
      decryptFromTransmission_encryptForTransmission, addRequest]
  · rfl

/-! ## Client messages and user registration
(src/core/websocket/types.ts, userService.ts) -/

/-- The `register` payload: `{username?, x25519PublicKey}` (the optional
`encryptedMetadata` field is never set by the client code). -/
structure RegisterPayload where
  username : Option String
  x25519PublicKey : String
deriving DecidableEq, Repr

/-- `ClientMessage` from websocket/types.ts: the tagged client-to-relay
frame union. -/
inductive ClientMessage
  | auth (address : String) (timestamp : Nat) (signature : String)
  | register (payload : RegisterPayload)
  | lookup (query : String)
  | paymentRequest (toAddress : String) (requestId : String)
      (encrypted : String) (expiresAt : Nat)
  | cancelRequest (requestId : String)
  | ping (timestamp : Nat)
deriving DecidableEq, Repr

/-- `registerUser(x25519PublicKey, username?)` from userService.ts: the
`register` frame it hands to `wsClient.send`. -/
def registerUser (x25519PublicKey : String) (username : Option String) :
    ClientMessage :=
  ClientMessage.register ⟨username, x25519PublicKey⟩

/-- `updateUsername(username, x25519PublicKey)` from userService.ts. -/
def updateUsername (username : String) (x25519PublicKey : String) :
    ClientMessage :=
  registerUser x25519PublicKey (some username)

/-- JS `String.prototype.trim` (a runtime built-in, modelled on the
character list). -/
def strTrim (s : String) : String :=
  String.mk
    (((s.data.dropWhile Char.isWhitespace).reverse.dropWhile
      Char.isWhitespace).reverse)

/-- JS `String.prototype.toLowerCase` (a runtime built-in; the Unicode
simple case mapping of `Char.toLower`). -/
def strToLower (s : String) : String := String.mk (s.data.map Char.toLower)

/-- `isValidUsername` from userService.ts: strip a leading `@`, then the
regex `[a-zA-Z][a-zA-Z0-9_]` with total length 3 to 20. -/
def isValidUsername (username : String) : Bool :=
  let cleaned :=
    match username.data with
    | '@' :: rest => rest
    | l => l
  match cleaned with
  | [] => false
  | c :: rest =>
    c.isAlpha && decide (2 ≤ rest.length) && decide (rest.length ≤ 19)
      && rest.all fun d => d.isAlphanum || d == '_'

/-- Outcome of the Profile screen's save-username callback: either a
validation/error message shown to the user, or the frame sent to the
relay together with the new locally stored username. -/
inductive SaveUsernameResult
  | validationError (message : String)
  | sent (m : ClientMessage) (newLocalUsername : String)
deriving DecidableEq, Repr

/-- `handleSaveUsername` from the Profile screen: trims and lowercases
the input, validates it, requires a live connection, reads the X25519
PRIVATE key from secure storage (`getX25519PrivateKey`), and calls
`updateUsername(trimmed, privateKeyBase64)` — passing the retrieved
private key where `updateUsername` expects the public key. -/
def handleSaveUsername (usernameInput : String) (isConnected : Bool)
    (storedX25519PrivateKey : Option String) : SaveUsernameResult :=
  let trimmed := strToLower (strTrim usernameInput)
  if trimmed = "" then
    SaveUsernameResult.validationError "Username cannot be empty"
  else if ¬ isValidUsername trimmed then
    SaveUsernameResult.validationError
      "3-20 chars, letters/numbers/underscores, must start with letter"
  else if ¬ isConnected then
    SaveUsernameResult.validationError "Not connected to relay server"
  else
    match storedX25519PrivateKey with
    | none => SaveUsernameResult.validationError "Encryption key not found"
    | some privateKeyBase64 =>
      SaveUsernameResult.sent (updateUsername trimmed privateKeyBase64) trimmed

/-- The App start-up registration path (App.tsx): derives the X25519 key
pair from the mnemonic and registers with the derived PUBLIC key. -/
def appInitRegister (publicKeyBase64 : String) : ClientMessage :=
  registerUser publicKeyBase64 none

/-- C1: evaluation at the failing input.  Saving the username "alice"
while connected sends a `register` frame whose `x25519PublicKey` payload
field is exactly the X25519 private key retrieved from secure storage —
the relay receives the device's private key, contradicting the claim
(and the correct App start-up path `appInitRegister`, which sends the
derived public key). -/
theorem saveUsername_sends_stored_private_key (storedPrivateKeyBase64 : String) :
    handleSaveUsername "alice" true (some storedPrivateKeyBase64) =
      SaveUsernameResult.sent
        (ClientMessage.register ⟨some "alice", storedPrivateKeyBase64⟩)
        "alice" := by
  rfl

/-! ## RelayConnection state machine (src/core/websocket/client.ts)

The `WebSocketClient` class, modelled as an explicit state record plus an
event-step function.  Timer handles become flags/pending values; the
frames written to the open socket are recorded in the ghost field
`transmitted` (authentication and ping frames pass through the same
`send`, and socket writes on an open socket are modelled as succeeding —
the `catch` fallback of `send` re-queues exactly like the not-open
branch).  The model assumes `initialize` was called (credentials bound),
which is the only configuration the claims concern. -/

/-- `INITIAL_RECONNECT_DELAY = 1000`. -/
def INITIAL_RECONNECT_DELAY : Nat := 1000

/-- `MAX_RECONNECT_DELAY = 30000`. -/
def MAX_RECONNECT_DELAY : Nat := 30000

/-- `MAX_RECONNECT_ATTEMPTS = 10`. -/
def MAX_RECONNECT_ATTEMPTS : Nat := 10

/-- `connectionState` values from websocket/types.ts. -/
inductive ConnState
  | disconnected
  | connecting
  | authenticating
  | connected
  | error
deriving DecidableEq, Repr

/-- The `WebSocketClient` instance state: socket handle (`ws !== null`,
`readyState === OPEN`), the `WebSocketState` record, timers and queue. -/
structure ClientState where
  wsExists : Bool
  wsOpenReady : Bool
  connectionState : ConnState
  isAuthenticated : Bool
  reconnectAttempts : Nat
  reconnectTimer : Option Nat
  pingTimer : Bool
  messageQueue : List ClientMessage
  transmitted : List ClientMessage
deriving DecidableEq, Repr

/-- `this.ws?.readyState === WebSocket.OPEN`. -/
def wsOpen (s : ClientState) : Bool := s.wsExists && s.wsOpenReady

/-- The backoff delay `min(INITIAL_RECONNECT_DELAY * 2 ** attempts,
MAX_RECONNECT_DELAY)` computed by `scheduleReconnect`. -/
def reconnectDelay (attempts : Nat) : Nat :=
  min (INITIAL_RECONNECT_DELAY * 2 ^ attempts) MAX_RECONNECT_DELAY

/-- `scheduleReconnect()`: gives up at the attempt cap, otherwise arms the
reconnect timer with the backoff delay. -/
def scheduleReconnect (s : ClientState) : ClientState :=
  if MAX_RECONNECT_ATTEMPTS ≤ s.reconnectAttempts then s
  else { s with reconnectTimer := some (reconnectDelay s.reconnectAttempts) }

/-- `clearTimers()`. -/
def clearTimers (s : ClientState) : ClientState :=
  { s with reconnectTimer := none, pingTimer := false }

/-- `send(message)`: queue when the socket is not open (returning
`false`, the queued result), else write to the transport. -/
def send (m : ClientMessage) (s : ClientState) : Bool × ClientState :=
  if wsOpen s then
    (true, { s with transmitted := s.transmitted ++ [m] })
  else
    (false, { s with messageQueue := s.messageQueue ++ [m] })

/-- `flushMessageQueue()`: `while (queue.length > 0) send(queue.shift())`.
The loop consumes one queued message per iteration when the socket is
open (the only state the code reaches it in), so the initial queue length
bounds the iteration count and serves as structural fuel. -/
def flushLoop : Nat → ClientState → ClientState
  | 0, s => s
  | fuel + 1, s =>
    match s.messageQueue with
    | [] => s
    | m :: rest => flushLoop fuel (send m { s with messageQueue := rest }).2

/-- `flushMessageQueue()`. -/
def flushMessageQueue (s : ClientState) : ClientState :=
  flushLoop s.messageQueue.length s

/-- `connect()`: no-op when the socket is already open; otherwise create
the socket (readyState CONNECTING) and enter `connecting`. -/
def connect (s : ClientState) : ClientState :=
  if wsOpen s then s
  else { s with wsExists := true, wsOpenReady := false,
                connectionState := ConnState.connecting }

/-- `disconnect()`: clear timers, pin `reconnectAttempts` to the cap to
suppress auto-reconnect, close and drop the socket, and report
`disconnected`. -/
def disconnect (s : ClientState) : ClientState :=
  { clearTimers s with
      reconnectAttempts := MAX_RECONNECT_ATTEMPTS
      wsExists := false
      wsOpenReady := false
      connectionState := ConnState.disconnected
      isAuthenticated := false }

/-- `handleOpen()`: the socket reports open; reset the attempt counter
and start authenticating. -/
def handleOpen (s : ClientState) : ClientState :=
  { s with wsOpenReady := true, connectionState := ConnState.authenticating,
           reconnectAttempts := 0 }

/-- The `auth_success` branch of `handleMessage`: mark connected and
authenticated, start the ping timer, flush the queue. -/
def handleAuthSuccess (s : ClientState) : ClientState :=
  flushMessageQueue
    { s with connectionState := ConnState.connected, isAuthenticated := true,
             pingTimer := true }

/-- The `auth_error` branch of `handleMessage`: record the error and
`disconnect()`. -/
def handleAuthError (s : ClientState) : ClientState :=
  disconnect
    { s with connectionState := ConnState.error, isAuthenticated := false }

/-- `handleClose(event)`: clear timers, drop the socket, report
`disconnected`; a non-normal close code (anything but 1000) schedules a
reconnect, a normal close never does. -/
def handleClose (code : Nat) (s : ClientState) : ClientState :=
  let s1 := clearTimers s
  let s2 := { s1 with wsExists := false, wsOpenReady := false,
                      connectionState := ConnState.disconnected,
                      isAuthenticated := false }
  if code ≠ 1000 then scheduleReconnect s2 else s2

/-- The reconnect `setTimeout` callback: bump the attempt counter and
`connect()`; the timer is consumed. -/
def reconnectTimerFire (s : ClientState) : ClientState :=
  match s.reconnectTimer with
  | none => s
  | some _ =>
    connect { s with reconnectTimer := none,
                     reconnectAttempts := s.reconnectAttempts + 1 }

/-- The ping `setInterval` callback: `send({type:'ping', ...})` while the
timer is armed. -/
def pingTimerFire (timestamp : Nat) (s : ClientState) : ClientState :=
  if s.pingTimer then (send (ClientMessage.ping timestamp) s).2 else s

/-- The externally triggered events of one connection object.  Socket
events (`opened`, `closed`, inbound auth frames) are delivered only while
the socket object exists; timer callbacks only while armed.  The
caller-initiated `connect()`/`disconnect()` are applied separately, so a
trace of `SocketEvent`s is exactly the automatic behaviour between user
actions. -/
inductive SocketEvent
  | opened
  | closed (code : Nat)
  | authSuccess
  | authError
  | reconnectTimeout
  | pingTimeout (timestamp : Nat)
  | sendReq (m : ClientMessage)
deriving DecidableEq, Repr

/-- The event-step function of the connection state machine. -/
def step (s : ClientState) (e : SocketEvent) : ClientState :=
  match e with
  | SocketEvent.opened => if s.wsExists then handleOpen s else s
  | SocketEvent.closed code => if s.wsExists then handleClose code s else s
  | SocketEvent.authSuccess => if s.wsExists then handleAuthSuccess s else s
  | SocketEvent.authError => if s.wsExists then handleAuthError s else s
  | SocketEvent.reconnectTimeout => reconnectTimerFire s
  | SocketEvent.pingTimeout t => pingTimerFire t s
  | SocketEvent.sendReq m => (send m s).2

/-- The quiescent condition established by `disconnect()`: no socket, no
armed timers, attempt counter pinned at the cap, reported state
`disconnected`. -/
def noAutoReconnect (s : ClientState) : Prop :=
  s.reconnectTimer = none ∧ s.wsExists = false ∧ s.pingTimer = false ∧
    MAX_RECONNECT_ATTEMPTS ≤ s.reconnectAttempts ∧
    s.connectionState = ConnState.disconnected

lemma noAutoReconnect_disconnect (s : ClientState) :
    noAutoReconnect (disconnect s) := by
  simp [noAutoReconnect, disconnect, clearTimers]

lemma noAutoReconnect_step (s : ClientState) (e : SocketEvent)
    (h : noAutoReconnect s) : noAutoReconnect (step s e) := by
  obtain ⟨h1, h2, h3, h4, h5⟩ := h
  cases e with
  | opened => simpa [step, h2] using ⟨h1, h2, h3, h4, h5⟩
  | closed code => simpa [step, h2] using ⟨h1, h2, h3, h4, h5⟩
  | authSuccess => simpa [step, h2] using ⟨h1, h2, h3, h4, h5⟩
  | authError => simpa [step, h2] using ⟨h1, h2, h3, h4, h5⟩
  | reconnectTimeout =>
    simp only [step, reconnectTimerFire, h1]
    exact ⟨h1, h2, h3, h4, h5⟩
  | pingTimeout t =>
    simp only [step, pingTimerFire, h3, if_neg]
    · exact ⟨h1, h2, h3, h4, h5⟩
  | sendReq m =>
    have hcond : wsOpen s ≠ true := by simp [wsOpen, h2]
    have hsend :
        (send m s).2 = { s with messageQueue := s.messageQueue ++ [m] } := by
      simp only [send, if_neg hcond]
    simp only [step, hsend]
    exact ⟨h1, h2, h3, h4, h5⟩

lemma noAutoReconnect_trace (s : ClientState) (evs : List SocketEvent)
    (h : noAutoReconnect s) : noAutoReconnect (evs.foldl step s) := by
  induction evs generalizing s with
  | nil => exact h
  | cons e evs ih => exact ih (step s e) (noAutoReconnect_step s e h)

/-- C7: the reconnect delay is monotone non-decreasing in the attempt
counter and capped at 30 s; once the counter reaches the 10-attempt cap,
`scheduleReconnect` arms nothing; the counter never decreases across
closures or timer fires (so the delays of consecutive non-normal closures
are non-decreasing); a normal (1000) closure leaves no reconnect timer;
and after `disconnect()` every trace of automatic events keeps the
connection quiescent — no timer armed, no socket, state `disconnected`. -/
theorem reconnect_policy :
    (∀ a b : Nat, a ≤ b → reconnectDelay a ≤ reconnectDelay b)
    ∧ (∀ a : Nat, reconnectDelay a ≤ MAX_RECONNECT_DELAY)
    ∧ (∀ s : ClientState, MAX_RECONNECT_ATTEMPTS ≤ s.reconnectAttempts →
        scheduleReconnect s = s)
    ∧ (∀ (s : ClientState) (code : Nat),
        s.reconnectAttempts ≤ (step s (SocketEvent.closed code)).reconnectAttempts)
    ∧ (∀ s : ClientState,
        s.reconnectAttempts ≤ (step s SocketEvent.reconnectTimeout).reconnectAttempts)
    ∧ (∀ s : ClientState, (handleClose 1000 s).reconnectTimer = none)
    ∧ (∀ (s : ClientState) (evs : List SocketEvent),
        noAutoReconnect (evs.foldl step (disconnect s))) := by
  refine ⟨?_, ?_, ?_, ?_, ?_, ?_, ?_⟩
  · intro a b hab
    have h2 : INITIAL_RECONNECT_DELAY * 2 ^ a ≤ INITIAL_RECONNECT_DELAY * 2 ^ b :=
      Nat.mul_le_mul_left _ (Nat.pow_le_pow_right (by norm_num) hab)
    exact min_le_min h2 le_rfl
  · intro a
    exact min_le_right _ _
  · intro s h
    simp [scheduleReconnect, h]
  · intro s code
    simp only [step]
    by_cases hws : s.wsExists = true
    · rw [if_pos hws]
      simp only [handleClose, clearTimers, scheduleReconnect]
      split
      · split
        · exact le_rfl
        · exact le_rfl
      · exact le_rfl
    · rw [if_neg hws]
  · intro s
    simp only [step, reconnectTimerFire]
    cases hrt : s.reconnectTimer with
    | none => exact le_rfl
    | some d =>
      simp only [connect]
      split
      · exact Nat.le_succ _
      · exact Nat.le_succ _
  · intro s
    simp [handleClose, clearTimers]
  · intro s evs
    exact noAutoReconnect_trace _ evs (noAutoReconnect_disconnect s)

/-- C7 witness: concrete instances — delay grows from attempt 1 to 2, and
a disconnected client stays quiescent under a late non-normal close event
followed by a timer fire. -/
theorem reconnect_policy_witness :
    (1 : Nat) ≤ 2 ∧ reconnectDelay 1 ≤ reconnectDelay 2
    ∧ noAutoReconnect
        ([SocketEvent.closed 1006, SocketEvent.reconnectTimeout].foldl step
          (disconnect
            ⟨true, true, ConnState.connected, true, 3, some 8000, true, [], []⟩)) :=
  ⟨by decide, reconnect_policy.1 1 2 (by decide),
    reconnect_policy.2.2.2.2.2.2
      ⟨true, true, ConnState.connected, true, 3, some 8000, true, [], []⟩
      [SocketEvent.closed 1006, SocketEvent.reconnectTimeout]⟩

/-! ## Claim C8 — queue-and-flush semantics of send -/

/-- While the socket is open, the flush loop writes the whole queue to
the transport in queue (FIFO) order and empties it. -/
lemma flushLoop_open (fuel : Nat) :
    ∀ s : ClientState, wsOpen s = true → s.messageQueue.length ≤ fuel →
      (flushLoop fuel s).transmitted = s.transmitted ++ s.messageQueue ∧
        (flushLoop fuel s).messageQueue = [] := by
  induction fuel with
  | zero =>
    intro s hop hlen
    have hq : s.messageQueue = [] := List.length_eq_zero.mp (Nat.le_zero.mp hlen)
    simp [flushLoop, hq]
  | succ fuel ih =>
    intro s hop hlen
    cases hq : s.messageQueue with
    | nil => simp [flushLoop, hq]
    | cons m rest =>
      have hop' : wsOpen ({ s with messageQueue := rest } : ClientState) = true := by
        simpa [wsOpen] using hop
      have hstep :
          (send m { s with messageQueue := rest }).2 =
            { s with messageQueue := rest, transmitted := s.transmitted ++ [m] } := by
        simp only [send, if_pos hop']
      have hlen' :
          ({ s with messageQueue := rest, transmitted := s.transmitted ++ [m] } :
              ClientState).messageQueue.length ≤ fuel := by
        rw [hq] at hlen
        simp only [List.length_cons] at hlen ⊢
        omega
      have hop'' :
          wsOpen ({ s with messageQueue := rest, transmitted := s.transmitted ++ [m] } :
              ClientState) = true := by
        simpa [wsOpen] using hop
      have hrec := ih _ hop'' hlen'
      simp only [flushLoop, hq, hstep]
      refine ⟨?_, hrec.2⟩
      rw [hrec.1]
      simp

/-- C8: a `send` while the transport is not open appends the message to
the outbound queue and returns the queued (`false`) result — it does not
fail; and the `auth_success` handler (connection authenticated again)
flushes every queued message to the transport in FIFO queue order,
leaving the queue empty. -/
theorem send_queue_fifo :
    (∀ (s : ClientState) (m : ClientMessage), wsOpen s = false →
        send m s = (false, { s with messageQueue := s.messageQueue ++ [m] }))
    ∧ (∀ s : ClientState, s.wsExists = true → s.wsOpenReady = true →
        (step s SocketEvent.authSuccess).transmitted =
            s.transmitted ++ s.messageQueue ∧
          (step s SocketEvent.authSuccess).messageQueue = []) := by
  constructor
  · intro s m h
    have hcond : ¬ (wsOpen s = true) := by simp [h]
    simp only [send, if_neg hcond]
  · intro s h1 h2
    have hop :
        wsOpen ({ s with connectionState := ConnState.connected, isAuthenticated := true, pingTimer := true } :
          ClientState) = true := by
      simp [wsOpen, h1, h2]
    have hflush := flushLoop_open
      ({ s with connectionState := ConnState.connected, isAuthenticated := true, pingTimer := true } :
        ClientState).messageQueue.length
      { s with connectionState := ConnState.connected, isAuthenticated := true, pingTimer := true }
      hop le_rfl
    simpa [step, h1, handleAuthSuccess, flushMessageQueue] using hflush

/-- C8 witness: a concrete queued send while disconnected; then, on a
concrete authenticated state with two queued frames, `auth_success`
transmits them in FIFO order and empties the queue. -/
theorem send_queue_fifo_witness :
    (wsOpen ⟨false, false, ConnState.disconnected, false, 0, none, false,
        [], []⟩ = false)
    ∧ send (ClientMessage.ping 5)
        ⟨false, false, ConnState.disconnected, false, 0, none, false, [], []⟩ =
        (false, ⟨false, false, ConnState.disconnected, false, 0, none, false,
          [ClientMessage.ping 5], []⟩)
    ∧ (step ⟨true, true, ConnState.authenticating, false, 0, none, false,
        [ClientMessage.lookup "@alice", ClientMessage.ping 9], []⟩
          SocketEvent.authSuccess).transmitted =
        [ClientMessage.lookup "@alice", ClientMessage.ping 9] :=
  ⟨by decide,
    send_queue_fifo.1
      ⟨false, false, ConnState.disconnected, false, 0, none, false, [], []⟩
      (ClientMessage.ping 5) (by decide),
    (send_queue_fifo.2
      ⟨true, true, ConnState.authenticating, false, 0, none, false,
        [ClientMessage.lookup "@alice", ClientMessage.ping 9], []⟩
      rfl rfl).1⟩

end StablePay
